import Mathlib

/-!
Verification development for the hermes sandbox session lifecycle manager.

The definitions below are a shallow embedding of the TypeScript source:

* `Hermes.HermesSession` and the session store operations embed the durable
  session data model (`sessionDb.ts` is not part of the provided sources, so
  the store operations are modelled from the specification, as marked).
* `Hermes.Cloud` embeds `CloudSandboxProvider` from
  `src/services/sandbox/cloudProvider.ts` and `ensureCloudSnapshot` from
  `src/services/sandbox/cloudSnapshot.ts`.  Backend calls issued through
  `DenoApiClient` are made explicit: each operation takes a `CloudEnv`
  describing the outcome of every backend call (a test double) and returns,
  besides its result, the ordered list of backend calls it issued.
* `Hermes.Docker` embeds the docker container service (`docker.ts`):
  `ensureDockerImage`, `listHermesSessions`, `getSession`, `resumeSession`.
-/

namespace Hermes

/-- Session record as persisted by the cloud provider (`HermesSession` in
`src/services/sandbox/types.ts`; the fields are exactly the ones written by
`CloudSandboxProvider.create` / `resume`).  Optional TypeScript fields are
`Option String`. -/
structure HermesSession where
  id : String
  name : String
  provider : String
  status : String
  agent : String
  model : Option String
  prompt : String
  branch : String
  repo : String
  created : String
  interactive : Bool
  region : Option String
  volumeSlug : Option String
  snapshotSlug : Option String
  resumedFrom : Option String
deriving Repr, DecidableEq

/-- The session store is the list of persisted session rows. -/
abbrev Store := List HermesSession

/-- JavaScript truthiness of an optional string: `undefined`/`null` and the
empty string are falsy, every other string is truthy. -/
def truthy : Option String → Bool
  | none => false
  | some s => !(s == "")

/-- Extract the string from an optional value; the empty string stands for a
missing value (used only after a truthiness check, mirroring TypeScript
non-null assertions such as `existing.volumeSlug as string`). -/
def optStr : Option String → String
  | none => ""
  | some s => s

/-- Modelled from the spec: `getSession` of `sessionDb.ts` (missing from the
sources) looks a session row up by its `id` column. -/
def getSession (store : Store) (id : String) : Option HermesSession :=
  store.find? (fun s => s.id == id)

/-- Modelled from the spec: `listSessions` of `sessionDb.ts` (missing from
the sources) returns the rows matching the given `provider` and, when
given, `status` filter. -/
def listSessions (store : Store) (provider : String)
    (status : Option String) : List HermesSession :=
  store.filter (fun s =>
    s.provider == provider &&
      (match status with
       | none => true
       | some st => s.status == st))

/-- Modelled from the spec: `upsertSession` of `sessionDb.ts` (missing from
the sources) replaces the row with the same `id` when one exists and
inserts a new row otherwise (spec section 3: a resume inserts a new row
with a new id rather than mutating the old one). -/
def upsertSession (store : Store) (session : HermesSession) : Store :=
  if store.any (fun s => s.id == session.id) then
    store.map (fun s => if s.id == session.id then session else s)
  else
    store ++ [session]

/-- Modelled from the spec: `updateSessionStatus` of `sessionDb.ts` (missing
from the sources) sets the `status` column of the row with the given id. -/
def updateSessionStatus (store : Store) (id status : String) : Store :=
  store.map (fun s => if s.id == id then { s with status := status } else s)

/-- Modelled from the spec: `updateSessionSnapshot` of `sessionDb.ts`
(missing from the sources) sets the `snapshotSlug` column of the row with
the given id. -/
def updateSessionSnapshot (store : Store) (id slug : String) : Store :=
  store.map (fun s =>
    if s.id == id then { s with snapshotSlug := some slug } else s)

/-- Modelled from the spec: `deleteSession` of `sessionDb.ts` (missing from
the sources) removes the row with the given id. -/
def deleteSession (store : Store) (id : String) : Store :=
  store.filter (fun s => !(s.id == id))

/-- Modelled from the spec: `denoSlug` of `denoApi.ts` (its definition is
missing from the sources) builds a deterministic resource slug from a short
tag and an optional human-readable name. -/
def denoSlug (tag : String) (name : Option String) : String :=
  match name with
  | some n => tag ++ "-" ++ n
  | none => tag

namespace Cloud

/-- One backend call issued through `DenoApiClient`, in the order the
provider awaits them. -/
inductive BCall where
  | killSandbox (id : String)
  | deleteSnapshot (slug : String)
  | deleteVolume (idOrSlug : String)
  | createVolume (slug region source : String)
  | createSandbox (region root : String)
  | snapshotVolume (volume slug : String)
deriving Repr, DecidableEq

/-- The region argument a backend call was issued with (`none` for calls
that do not carry one). -/
def callRegion : BCall → Option String
  | .createVolume _ r _ => some r
  | .createSandbox r _ => some r
  | _ => none

/-- Test double for the Deno Deploy backend and ambient configuration: the
outcome of every call a cloud provider operation can make.
`createVolumeResp` carries the backend-assigned volume id on success
(the returned slug echoes the requested one); `createSandboxResp` carries
`resolvedId`.  `postBootOk` stands for the in-sandbox shell steps
(credential injection, clone, init script, agent start) all succeeding. -/
structure CloudEnv where
  clientOk : Bool
  configRegion : Option String
  provRegion : String
  ensureImageResp : Except String String
  createVolumeResp : Except String String
  createSandboxResp : Except String String
  listResp : Except String (List String)
  snapshotOk : Bool
  deleteSnapshotOk : Bool
  deleteVolumeOk : Bool
  postBootOk : Bool
  now : String
deriving Repr

/-- `resolveRegion`: `config.cloudRegion ?? this.region` (nullish
coalescing, so even an empty configured string wins). -/
def resolveRegion (env : CloudEnv) : String :=
  match env.configRegion with
  | some r => r
  | none => env.provRegion

/-- Infix (substring) test on character lists, the semantics of JavaScript
`String.prototype.includes`. -/
def listContainsSeq (needle : List Char) : List Char → Bool
  | [] => needle.isEmpty
  | c :: t => needle.isPrefixOf (c :: t) || listContainsSeq needle t

/-- JavaScript `hay.includes(sub)`. -/
def strIncludes (hay sub : String) : Bool :=
  listContainsSeq sub.data hay.data

/-- The quota/concurrency-limit test from `create` / `resume`:
`message.includes('limit') || message.includes('concurrent') ||
message.includes('quota')`. -/
def isLimitMessage (msg : String) : Bool :=
  strIncludes msg "limit" || strIncludes msg "concurrent" ||
    strIncludes msg "quota"

/-- The resource-limit error message raised by `create` / `resume`, with the
current count of running cloud sessions interpolated. -/
def limitMessage (n : Nat) : String :=
  "Cloud sandbox limit reached (" ++ toString n ++ " running). " ++
    "Stop a running session or wait for one to finish."

/-- Number of sessions the store lists as running on the cloud backend:
`dbListSessions(db, provider: cloud, status: running).length`. -/
def runningCloudCount (store : Store) : Nat :=
  (listSessions store "cloud" (some "running")).length

/-- Result of a cloud provider operation: the value or thrown error, the
session store after the call, and the ordered backend calls issued. -/
structure CloudResult (α : Type) where
  result : Except String α
  store : Store
  calls : List BCall
deriving Repr

/-- Options consumed by `CloudSandboxProvider.create`
(`CreateSandboxOptions`), restricted to the fields the lifecycle logic
reads. -/
structure CreateOptions where
  branchName : String
  prompt : String
  agent : String
  model : Option String
  interactive : Bool
  repoFullName : Option String
deriving Repr, DecidableEq

/-- Shallow embedding of `CloudSandboxProvider.create`
(`cloudProvider.ts`): ensure the base image, create the session volume from
it, boot the sandbox (rolling the volume back and classifying limit errors
on boot failure), run the in-sandbox steps, then record the session and
return it (`null` when interactive). -/
def create (env : CloudEnv) (store : Store) (options : CreateOptions) :
    CloudResult (Option HermesSession) :=
  if !env.clientOk then
    ⟨.error "No Deno Deploy token available", store, []⟩
  else
    match env.ensureImageResp with
    | .error e => ⟨.error e, store, []⟩
    | .ok baseSnapshot =>
      let region := resolveRegion env
      let volumeSlug := denoSlug "hs" (some options.branchName)
      match env.createVolumeResp with
      | .error e =>
        ⟨.error e, store, [.createVolume volumeSlug region baseSnapshot]⟩
      | .ok volId =>
        match env.createSandboxResp with
        | .error msg =>
          let calls := [BCall.createVolume volumeSlug region baseSnapshot,
                        BCall.createSandbox region volumeSlug,
                        BCall.deleteVolume volId]
          if isLimitMessage msg then
            ⟨.error (limitMessage (runningCloudCount store)), store, calls⟩
          else
            ⟨.error msg, store, calls⟩
        | .ok resolvedId =>
          let calls := [BCall.createVolume volumeSlug region baseSnapshot,
                        BCall.createSandbox region volumeSlug]
          if !env.postBootOk then
            ⟨.error "Sandbox command failed", store, calls⟩
          else
            let session : HermesSession :=
              { id := resolvedId
                name := options.branchName
                provider := "cloud"
                status := "running"
                agent := options.agent
                model := options.model
                prompt := options.prompt
                branch := options.branchName
                repo := (match options.repoFullName with
                         | some f => f
                         | none => "local")
                created := env.now
                interactive := options.interactive
                region := some region
                volumeSlug := some volumeSlug
                snapshotSlug := none
                resumedFrom := none }
            ⟨.ok (if options.interactive then none else some session),
              upsertSession store session, calls⟩

/-- Options consumed by `CloudSandboxProvider.resume`
(`ResumeSandboxOptions`), restricted to the fields the lifecycle logic
reads.  `mode` is one of `"interactive"`, `"detached"`, `"shell"`. -/
structure ResumeOptions where
  mode : String
  prompt : Option String
  model : Option String
deriving Repr, DecidableEq

/-- Result of `resume`: besides the `CloudResult` data it records whether
the region-mismatch warning was logged. -/
structure ResumeResult where
  result : Except String String
  store : Store
  calls : List BCall
  regionWarned : Bool
deriving Repr

/-- The error thrown by `resume` when the stored session has neither a
resume snapshot nor a volume. -/
def noArtifactMsg : String :=
  "No resume snapshot or volume available for this session"

/-- Continuation of `resume` after the boot volume is determined: boot the
sandbox (rolling back a freshly created volume and classifying limit errors
on failure), run the in-sandbox steps, then insert the new session row and
return the new id. -/
def resumeBoot (env : CloudEnv) (store : Store) (sessionId : String)
    (options : ResumeOptions) (existing : HermesSession)
    (region bootVolumeSlug : String) (createdNewVolume : Bool)
    (calls : List BCall) (regionWarned : Bool) : ResumeResult :=
  match env.createSandboxResp with
  | .error msg =>
    let calls1 := calls ++ [BCall.createSandbox region bootVolumeSlug] ++
      (if createdNewVolume then [BCall.deleteVolume bootVolumeSlug] else [])
    if isLimitMessage msg then
      ⟨.error (limitMessage (runningCloudCount store)), store, calls1,
        regionWarned⟩
    else
      ⟨.error msg, store, calls1, regionWarned⟩
  | .ok resolvedId =>
    let calls1 := calls ++ [BCall.createSandbox region bootVolumeSlug]
    if !env.postBootOk then
      ⟨.error "Sandbox command failed", store, calls1, regionWarned⟩
    else
      let newSession : HermesSession :=
        { id := resolvedId
          name := existing.name
          provider := "cloud"
          status := "running"
          agent := existing.agent
          model := (match options.model with
                    | some m => some m
                    | none => existing.model)
          prompt := (match options.prompt with
                     | some p => p
                     | none => existing.prompt)
          branch := existing.branch
          repo := existing.repo
          created := env.now
          interactive :=
            (options.mode == "interactive" || options.mode == "shell")
          region := some region
          volumeSlug := some bootVolumeSlug
          snapshotSlug := none
          resumedFrom := some sessionId }
      ⟨.ok resolvedId, upsertSession store newSession, calls1, regionWarned⟩

/-- Shallow embedding of `CloudSandboxProvider.resume`
(`cloudProvider.ts`): reject when the stored session has neither a resume
snapshot nor a volume (JavaScript truthiness, so a missing row also
rejects); pick the session's recorded region over the configured one,
warning when they differ; clone a fresh volume from the snapshot when one
exists, otherwise boot directly from the session volume; then
`resumeBoot`. -/
def resume (env : CloudEnv) (store : Store) (sessionId : String)
    (options : ResumeOptions) : ResumeResult :=
  if !env.clientOk then
    ⟨.error "No Deno Deploy token available", store, [], false⟩
  else
    match getSession store sessionId with
    | none => ⟨.error noArtifactMsg, store, [], false⟩
    | some existing =>
      if !(truthy existing.snapshotSlug) && !(truthy existing.volumeSlug)
      then
        ⟨.error noArtifactMsg, store, [], false⟩
      else
        let currentRegion := resolveRegion env
        let regionWarned := truthy existing.region &&
          !(existing.region == some currentRegion)
        let region :=
          (match existing.region with
           | some r => r
           | none => currentRegion)
        if truthy existing.snapshotSlug then
          let resumeVolumeSlug := denoSlug "hr" (some existing.name)
          let snapSlug := optStr existing.snapshotSlug
          match env.createVolumeResp with
          | .error e =>
            ⟨.error e, store,
              [BCall.createVolume resumeVolumeSlug region snapSlug],
              regionWarned⟩
          | .ok _ =>
            resumeBoot env store sessionId options existing region
              resumeVolumeSlug true
              [BCall.createVolume resumeVolumeSlug region snapSlug]
              regionWarned
        else
          resumeBoot env store sessionId options existing region
            (optStr existing.volumeSlug) false [] regionWarned

/-- Shallow embedding of `CloudSandboxProvider.stop`
(`cloudProvider.ts`): kill the sandbox (the client swallows kill errors
internally), persist `status = stopped`, then best-effort snapshot the
session volume, recording the snapshot slug only on success. -/
def stop (env : CloudEnv) (store : Store) (sessionId : String) :
    CloudResult Unit :=
  if !env.clientOk then
    ⟨.error "No Deno Deploy token available", store, []⟩
  else
    let store1 := updateSessionStatus store sessionId "stopped"
    match getSession store sessionId with
    | none => ⟨.ok (), store1, [BCall.killSandbox sessionId]⟩
    | some session =>
      if truthy session.volumeSlug then
        let volSlug := optStr session.volumeSlug
        let snapshotSlug := denoSlug "hsnap" (some session.name)
        if env.snapshotOk then
          ⟨.ok (), updateSessionSnapshot store1 sessionId snapshotSlug,
            [BCall.killSandbox sessionId,
             BCall.snapshotVolume volSlug snapshotSlug]⟩
        else
          ⟨.ok (), store1,
            [BCall.killSandbox sessionId,
             BCall.snapshotVolume volSlug snapshotSlug]⟩
      else
        ⟨.ok (), store1, [BCall.killSandbox sessionId]⟩

/-- Shallow embedding of `CloudSandboxProvider.remove`
(`cloudProvider.ts`): best-effort backend cleanup — kill the sandbox, then
delete the session snapshot (when stored), then the session volume (when
stored), each failure caught and logged — followed by unconditional
deletion of the local store row.  A client initialization failure skips all
backend calls but still deletes the row.  The call list does not depend on
`deleteSnapshotOk` / `deleteVolumeOk`: every delete is attempted whenever
its slug is stored. -/
def remove (env : CloudEnv) (store : Store) (sessionId : String) :
    Store × List BCall :=
  let calls :=
    if env.clientOk then
      [BCall.killSandbox sessionId] ++
        (match getSession store sessionId with
         | none => []
         | some s =>
           (if truthy s.snapshotSlug then
              [BCall.deleteSnapshot (optStr s.snapshotSlug)]
            else []) ++
           (if truthy s.volumeSlug then
              [BCall.deleteVolume (optStr s.volumeSlug)]
            else []))
    else []
  (deleteSession store sessionId, calls)

/-- Shallow embedding of `CloudSandboxProvider.list`
(`cloudProvider.ts`): read the cloud rows from the store, then try to sync
status from the backend — a stored `running` session the backend no longer
lists becomes `exited`, persisted; any sync failure (no client or a failed
backend list) is swallowed and the stored rows are returned unmodified.
`staleAgainst` is the per-session condition of the sync loop:
`session.status === running && !runningIds.has(session.id)`. -/
def staleAgainst (runningIds : List String) (s : HermesSession) : Bool :=
  s.status == "running" && !(runningIds.contains s.id)

/-- The body of `CloudSandboxProvider.list`; see `staleAgainst`. -/
def list (env : CloudEnv) (store : Store) :
    List HermesSession × Store :=
  let dbSessions := listSessions store "cloud" none
  if !env.clientOk then (dbSessions, store)
  else
    match env.listResp with
    | .error _ => (dbSessions, store)
    | .ok runningIds =>
      let returned := dbSessions.map (fun s =>
        if staleAgainst runningIds s then { s with status := "exited" }
        else s)
      let store1 := dbSessions.foldl (fun acc s =>
        if staleAgainst runningIds s then
          updateSessionStatus acc s.id "exited"
        else acc) store
      (returned, store1)

/-- Whether the stored session of `sid` carries a resume artifact: the
condition `existing?.snapshotSlug || existing?.volumeSlug` guarding
`resume` (JavaScript truthiness; a missing row carries nothing). -/
def hasResumeArtifact (store : Store) (sid : String) : Bool :=
  match getSession store sid with
  | none => false
  | some s => truthy s.snapshotSlug || truthy s.volumeSlug

/-- One call made by the base-snapshot builder `ensureCloudSnapshot`
(`cloudSnapshot.ts`), in order.  The seven in-sandbox install commands are
`installStep`s. -/
inductive BuildCall where
  | getSnapshot (slug : String)
  | createVolume (slug region source : String)
  | createSandbox (region root : String)
  | installStep (name : String)
  | snapshotVolume (volume slug : String)
  | killSandbox
  | deleteVolume (id : String)
deriving Repr, DecidableEq

/-- Test double for the backend as seen by `ensureCloudSnapshot`.  The seven
install commands are modelled as atomic steps that either all succeed or
the first one throws (`installOk`); no settled claim depends on which
install step fails.  `volId` is the backend-assigned id of the build
volume and `nowTag` the `Date.now()` part of its slug. -/
structure SnapEnv where
  getSnapshotOk : Bool
  createVolumeOk : Bool
  createSandboxOk : Bool
  installOk : Bool
  snapshotVolumeOk : Bool
  volId : String
  nowTag : String
deriving Repr

/-- `getBaseSnapshotSlug` of `cloudSnapshot.ts`: the deterministic slug of
the shared base snapshot, derived from the package version. -/
def baseSnapshotSlug (version : String) : String :=
  "hermes-base-" ++ version

/-- Result of `ensureCloudSnapshot`: the returned slug or thrown error, the
set of snapshots existing in the backend afterwards, and the ordered
backend calls issued. -/
structure SnapResult where
  result : Except String String
  snapshots : List String
  calls : List BuildCall
deriving Repr

/-- Names for the seven sequential install commands of
`ensureCloudSnapshot`. -/
def installSteps : List String :=
  ["system-packages", "github-cli", "hermes-user", "claude-code",
   "tiger-cli", "opencode-install", "git-config"]

/-- Cleanup calls of the `finally` block of `ensureCloudSnapshot`: kill the
build sandbox (when one was booted) and delete the build volume, each
failure swallowed. -/
def buildCleanup (sandboxBooted : Bool) (volId : String) : List BuildCall :=
  (if sandboxBooted then [BuildCall.killSandbox] else []) ++
    [BuildCall.deleteVolume volId]

/-- Shallow embedding of `ensureCloudSnapshot` (`cloudSnapshot.ts`), the
cloud `ensureImage`: look the version-derived base snapshot slug up first
(a failed lookup call is swallowed and falls through to a rebuild); when it
exists return it with no build work; otherwise create a build volume from
the builtin OS image, boot a sandbox on it, run the install steps, snapshot
the volume under the deterministic slug, and always run the cleanup block
at the end. -/
def ensureCloudSnapshot (env : SnapEnv) (snapshots : List String)
    (version region : String) : SnapResult :=
  let slug := baseSnapshotSlug version
  let checkCalls := [BuildCall.getSnapshot slug]
  if env.getSnapshotOk && snapshots.contains slug then
    ⟨.ok slug, snapshots, checkCalls⟩
  else
    let buildSlug := "hermes-base-build-" ++ env.nowTag
    let volCall := [BuildCall.createVolume buildSlug region
      "builtin:debian-13"]
    if !env.createVolumeOk then
      ⟨.error "volume creation failed", snapshots, checkCalls ++ volCall⟩
    else if !env.createSandboxOk then
      ⟨.error "sandbox boot failed", snapshots,
        checkCalls ++ volCall ++ [BuildCall.createSandbox region buildSlug]
          ++ buildCleanup false env.volId⟩
    else
      let bootCalls := checkCalls ++ volCall ++
        [BuildCall.createSandbox region buildSlug]
      if !env.installOk then
        ⟨.error "install step failed", snapshots,
          bootCalls ++ [BuildCall.installStep "system-packages"] ++
            buildCleanup true env.volId⟩
      else
        let installCalls := installSteps.map BuildCall.installStep
        if !env.snapshotVolumeOk then
          ⟨.error "snapshot failed", snapshots,
            bootCalls ++ installCalls ++
              [BuildCall.snapshotVolume env.volId slug] ++
              buildCleanup true env.volId⟩
        else
          ⟨.ok slug, snapshots ++ [slug],
            bootCalls ++ installCalls ++
              [BuildCall.snapshotVolume env.volId slug] ++
              buildCleanup true env.volId⟩

/-- A `BuildCall` that performs build work (everything except the existence
check and the cleanup block). -/
def isBuildWork : BuildCall → Bool
  | .getSnapshot _ => false
  | .killSandbox => false
  | .deleteVolume _ => false
  | _ => true

end Cloud

namespace Docker

/-- `DOCKER_IMAGE_TAG` of `docker.ts`: the image name tagged with the md5
content hash of the embedded Dockerfile. -/
def dockerImageTag (hash : String) : String :=
  "hermes-sandbox:md5-" ++ hash

/-- Result of `ensureDockerImage`: the outcome, the local image store
afterwards, and how many `docker build` runs were performed. -/
structure ImageResult where
  result : Except String Unit
  images : List String
  builds : Nat
deriving Repr

/-- Shallow embedding of `ensureDockerImage` (`docker.ts`):
`dockerImageExists` inspects the content-hash tag (any inspect failure
reads as absent), and the image is built only when the inspect did not find
it.  `inspectOk` is the inspect call succeeding, `buildOk` the `docker
build` exiting 0. -/
def ensureDockerImage (inspectOk buildOk : Bool) (images : List String)
    (hash : String) : ImageResult :=
  let tag := dockerImageTag hash
  if inspectOk && images.contains tag then
    ⟨.ok (), images, 0⟩
  else if buildOk then
    ⟨.ok (), images ++ [tag], 1⟩
  else
    ⟨.error "Docker build failed with exit code 1", images, 1⟩

/-- One container as reported by `docker inspect`: the fields of
`DockerInspectResult` that the service reads. -/
structure DockerContainer where
  cid : String
  cname : String
  labels : List (String × String)
  running : Bool
  paused : Bool
  restarting : Bool
  dead : Bool
  statusStr : String
  exitCode : Int
  startedAt : String
  finishedAt : String
deriving Repr, DecidableEq

/-- Label lookup, `container.Config.Labels[key]`. -/
def labelOf (c : DockerContainer) (key : String) : Option String :=
  (c.labels.find? (fun p => p.1 == key)).map (fun p => p.2)

/-- The ownership check `labels[hermes.managed] === true`. -/
def isManaged (c : DockerContainer) : Bool :=
  labelOf c "hermes.managed" == some "true"

/-- JavaScript `a || b` on an optional string: a missing or empty label
falls through to the default. -/
def orFalsy (v : Option String) (d : String) : String :=
  match v with
  | none => d
  | some s => if s == "" then d else s

/-- `s.slice(0, n)` on the characters of a string. -/
def sliceTo (s : String) (n : Nat) : String :=
  String.mk (s.data.take n)

/-- `name.replace(/^\//, '')`: strip one leading slash. -/
def stripSlash (s : String) : String :=
  match s.data with
  | [] => ""
  | c :: t => if c == '/' then String.mk t else String.mk (c :: t)

/-- Status derivation shared by `listHermesSessions` and `getSession`
(`docker.ts`): the runtime state flags in priority order, defaulting to
`exited`. -/
def deriveStatus (c : DockerContainer) : String :=
  if c.running then "running"
  else if c.paused then "paused"
  else if c.restarting then "restarting"
  else if c.dead then "dead"
  else if c.statusStr == "created" then "created"
  else "exited"

/-- Session row of the docker service (`HermesSession` in `docker.ts`). -/
structure DockerSession where
  containerId : String
  containerName : String
  name : String
  branch : String
  agent : String
  model : Option String
  repo : String
  prompt : String
  created : String
  resumedFrom : Option String
  status : String
  exitCode : Option Int
  startedAt : Option String
  finishedAt : Option String
deriving Repr, DecidableEq

/-- The container-to-session mapping shared by `listHermesSessions` and
`getSession` (`docker.ts`). -/
def toDockerSession (c : DockerContainer) : DockerSession :=
  let status := deriveStatus c
  { containerId := sliceTo c.cid 12
    containerName := stripSlash c.cname
    name := orFalsy (labelOf c "hermes.name")
      (orFalsy (labelOf c "hermes.branch") "unknown")
    branch := orFalsy (labelOf c "hermes.branch") "unknown"
    agent := orFalsy (labelOf c "hermes.agent") "opencode"
    model := labelOf c "hermes.model"
    repo := orFalsy (labelOf c "hermes.repo") "unknown"
    prompt := orFalsy (labelOf c "hermes.prompt") ""
    created := orFalsy (labelOf c "hermes.created") ""
    resumedFrom := labelOf c "hermes.resumed-from"
    status := status
    exitCode := if status == "exited" then some c.exitCode else none
    startedAt := some c.startedAt
    finishedAt := if status == "exited" then some c.finishedAt else none }

/-- Shallow embedding of `listHermesSessions` (`docker.ts`): ask the daemon
for all containers carrying the `hermes.managed=true` label (the
`docker ps --filter` flag), inspect and map each; any docker failure
returns the empty list. -/
def listHermesSessions (dockerOk : Bool)
    (daemon : List DockerContainer) : List DockerSession :=
  if !dockerOk then []
  else (daemon.filter isManaged).map toDockerSession

/-- `docker inspect nameOrId` resolution: a container matches by full id or
by name. -/
def findContainer (daemon : List DockerContainer) (nameOrId : String) :
    Option DockerContainer :=
  daemon.find? (fun c => c.cid == nameOrId || stripSlash c.cname == nameOrId)

/-- Shallow embedding of `getSession` (`docker.ts`): inspect the container;
return `null` when it is missing, when docker fails, or when the container
lacks the `hermes.managed=true` ownership label; otherwise map it. -/
def getSession (dockerOk : Bool) (daemon : List DockerContainer)
    (nameOrId : String) : Option DockerSession :=
  if !dockerOk then none
  else
    match findContainer daemon nameOrId with
    | none => none
    | some c => if !(isManaged c) then none else some (toDockerSession c)

/-- JavaScript whitespace for `trim` (the characters that occur in this
codebase's strings). -/
def isJsWs (c : Char) : Bool :=
  c == ' ' || c == '\t' || c == '\n' || c == '\r'

/-- JavaScript `s.trim()`. -/
def jsTrim (s : String) : String :=
  String.mk (((s.data.dropWhile isJsWs).reverse.dropWhile isJsWs).reverse)

/-- `name.replace(/\//g, '')`: remove every slash. -/
def removeSlashes (s : String) : String :=
  String.mk (s.data.filter (fun c => !(c == '/')))

/-- JavaScript `a ?? b` on an optional string (nullish coalescing: only a
missing value falls through, an empty string does not). -/
def orNullish (v : Option String) (d : String) : String :=
  match v with
  | none => d
  | some s => s

/-- Options of the docker `resumeSession` (`ResumeSessionOptions`). -/
structure DResumeOptions where
  mode : String
  prompt : Option String
deriving Repr, DecidableEq

/-- Test double for the docker calls `resumeSession` makes: `suffix` is the
`nanoid(6).toLowerCase()` value, `runStdout` the stdout of the detached
`docker run -d` (the new container id), `now` the creation timestamp. -/
structure DResumeEnv where
  commitOk : Bool
  runOk : Bool
  runStdout : String
  suffix : String
  now : String
deriving Repr

/-- Outcome of a successful `resumeSession`: the returned id (container id
when detached, container name when interactive), the new container's name,
and the labels passed to `docker run`. -/
structure DResumeOutcome where
  returnedId : String
  newName : String
  newLabels : List (String × String)
deriving Repr, DecidableEq

/-- Shallow embedding of `resumeSession` (`docker.ts`): validate the
detached prompt, inspect the source container, require the ownership label
and a non-running state, commit the container to a resume image, then run a
new container carrying fresh hermes labels — `hermes.resumed-from` is set
to the source container's name (leading slash stripped) — and return the
new container's id (detached) or name (interactive). -/
def resumeSession (env : DResumeEnv) (daemon : List DockerContainer)
    (nameOrId : String) (options : DResumeOptions) :
    Except String DResumeOutcome :=
  if options.mode == "detached" &&
      (match options.prompt with
       | none => true
       | some p => jsTrim p == "") then
    .error "Prompt is required for detached resume"
  else
    match findContainer daemon nameOrId with
    | none => .error ("Container " ++ nameOrId ++ " not found")
    | some container =>
      if !(isManaged container) then
        .error "Container is not managed by hermes"
      else if container.running then
        .error "Container is already running"
      else
        let agent := orFalsy (labelOf container "hermes.agent") "opencode"
        let model := labelOf container "hermes.model"
        let resumeImage :=
          "hermes-resume:" ++ sliceTo container.cid 12 ++ "-" ++ env.suffix
        if !env.commitOk then .error "docker commit failed"
        else
          let baseName := jsTrim (removeSlashes container.cname)
          let containerName := baseName ++ "-resumed-" ++ env.suffix
          let resumePrompt :=
            if options.mode == "detached" then
              (match options.prompt with
               | some p => orFalsy (some (jsTrim p)) ""
               | none => "")
            else orFalsy (labelOf container "hermes.prompt") ""
          let baseSessionName := orFalsy (labelOf container "hermes.name")
            (orFalsy (labelOf container "hermes.branch") "session")
          let resumeName := baseSessionName ++ "-resumed-" ++ env.suffix
          let newLabels :=
            [("hermes.managed", "true"),
             ("hermes.name", resumeName),
             ("hermes.branch",
               orNullish (labelOf container "hermes.branch") "unknown"),
             ("hermes.agent", agent),
             ("hermes.repo",
               orNullish (labelOf container "hermes.repo") "unknown"),
             ("hermes.created", env.now),
             ("hermes.prompt", resumePrompt),
             ("hermes.resumed-from", stripSlash container.cname),
             ("hermes.resume-image", resumeImage)] ++
            (match model with
             | some m => if m == "" then [] else [("hermes.model", m)]
             | none => [])
          if !env.runOk then .error "docker run failed"
          else if options.mode == "detached" then
            .ok ⟨jsTrim env.runStdout, containerName, newLabels⟩
          else
            .ok ⟨containerName, containerName, newLabels⟩

end Docker

/-! Concrete fixtures used by the witness theorems. -/

/-- A backend double where every call succeeds. -/
def okEnv : Cloud.CloudEnv :=
  { clientOk := true
    configRegion := none
    provRegion := "ord"
    ensureImageResp := .ok "hermes-base-0.3.0"
    createVolumeResp := .ok "vol-id-1"
    createSandboxResp := .ok "sb-new"
    listResp := .ok []
    snapshotOk := true
    deleteSnapshotOk := true
    deleteVolumeOk := true
    postBootOk := true
    now := "2026-10-12T00:00:00Z" }

/-- A stored cloud session with both a snapshot and a volume. -/
def sessFull : HermesSession :=
  { id := "s1"
    name := "feat"
    provider := "cloud"
    status := "stopped"
    agent := "claude"
    model := none
    prompt := "do it"
    branch := "feat"
    repo := "acme/app"
    created := "2026-10-11T00:00:00Z"
    interactive := false
    region := some "ams"
    volumeSlug := some "hs-feat"
    snapshotSlug := some "hsnap-feat"
    resumedFrom := none }

/-- A stored cloud session that is still running, with a volume and no
snapshot. -/
def sessRunning : HermesSession :=
  { id := "s2"
    name := "fix"
    provider := "cloud"
    status := "running"
    agent := "claude"
    model := none
    prompt := "fix it"
    branch := "fix"
    repo := "acme/app"
    created := "2026-10-11T01:00:00Z"
    interactive := false
    region := some "ord"
    volumeSlug := some "hs-fix"
    snapshotSlug := none
    resumedFrom := none }

/-- Basic create options: detached claude run on a branch. -/
def optsBasic : Cloud.CreateOptions :=
  { branchName := "b"
    prompt := "p"
    agent := "claude"
    model := none
    interactive := false
    repoFullName := none }

/-- A stored cloud session with neither snapshot nor volume. -/
def sessBare : HermesSession :=
  { id := "s3"
    name := "bare"
    provider := "cloud"
    status := "exited"
    agent := "opencode"
    model := none
    prompt := ""
    branch := "bare"
    repo := "local"
    created := "2026-10-11T02:00:00Z"
    interactive := false
    region := none
    volumeSlug := none
    snapshotSlug := none
    resumedFrom := none }

/-- The session row a detached `create` against `okEnv` stores when the
backend hands back an empty `resolvedId`. -/
def emptyIdSession : HermesSession :=
  { id := ""
    name := "b"
    provider := "cloud"
    status := "running"
    agent := "claude"
    model := none
    prompt := "p"
    branch := "b"
    repo := "local"
    created := "2026-10-12T00:00:00Z"
    interactive := false
    region := some "ord"
    volumeSlug := some "hs-b"
    snapshotSlug := none
    resumedFrom := none }

/-- A stopped docker container managed by hermes, whose name differs from
its id. -/
def dockerStopped : Docker.DockerContainer :=
  { cid := "c0ffee0000000"
    cname := "/hermes-x"
    labels := [("hermes.managed", "true"), ("hermes.name", "x"),
               ("hermes.branch", "x"), ("hermes.agent", "claude"),
               ("hermes.repo", "acme/app"), ("hermes.prompt", "p"),
               ("hermes.created", "t0")]
    running := false
    paused := false
    restarting := false
    dead := false
    statusStr := "exited"
    exitCode := 0
    startedAt := "t0"
    finishedAt := "t1" }

/-- A docker resume double where commit and run succeed. -/
def dResumeEnvOk : Docker.DResumeEnv :=
  { commitOk := true
    runOk := true
    runStdout := "77aa77aa77aa"
    suffix := "abc123"
    now := "2026-10-12T01:00:00Z" }

/-! Supporting lemmas about the session store and string helpers. -/

/-! A lemma on the docker resume. -/

namespace Docker

theorem resumeSession_resumedFrom_label (denv : DResumeEnv)
    (daemon : List DockerContainer) (x : String) (o2 : DResumeOptions)
    (out : DResumeOutcome) (c : DockerContainer)
    (hok : resumeSession denv daemon x o2 = Except.ok out)
    (hfind : findContainer daemon x = some c) :
    out.newLabels.find? (fun p => p.1 == "hermes.resumed-from") =
      some ("hermes.resumed-from", stripSlash c.cname) := by
  unfold resumeSession at hok
  split at hok
  · simp at hok
  · rw [hfind] at hok
    cases hm : isManaged c
    · simp [hm] at hok
    · cases hrun : c.running
      · cases hcm : denv.commitOk
        · simp [hm, hrun, hcm] at hok
        · cases hro : denv.runOk
          · simp [hm, hrun, hcm, hro] at hok
          · cases hmode : (o2.mode == "detached")
            · simp [hm, hrun, hcm, hro, hmode] at hok
              subst hok
              rfl
            · simp [hm, hrun, hcm, hro, hmode] at hok
              subst hok
              rfl
      · simp [hm, hrun] at hok

end Docker

theorem mem_upsert_self (st : Store) (s : HermesSession) :
    s ∈ upsertSession st s := by
  unfold upsertSession
  by_cases h : st.any (fun t => t.id == s.id) = true
  · simp only [h, if_true]
    rw [List.any_eq_true] at h
    obtain ⟨t, ht, hid⟩ := h
    exact List.mem_map.mpr ⟨t, ht, by simp [hid]⟩
  · simp only [Bool.not_eq_true] at h
    simp [h]

theorem mem_upsert_of_ne (st : Store) (s t : HermesSession)
    (ht : t ∈ st) (h : ¬t.id = s.id) : t ∈ upsertSession st s := by
  unfold upsertSession
  by_cases ha : st.any (fun u => u.id == s.id) = true
  · simp only [ha, if_true]
    exact List.mem_map.mpr ⟨t, ht, by simp [h]⟩
  · simp only [Bool.not_eq_true] at ha
    simp only [ha, Bool.false_eq_true, if_false]
    exact List.mem_append.mpr (Or.inl ht)

theorem of_mem_upsert_ne (st : Store) (s t : HermesSession)
    (ht : t ∈ upsertSession st s) (h : ¬t.id = s.id) : t ∈ st := by
  unfold upsertSession at ht
  by_cases ha : st.any (fun u => u.id == s.id) = true
  · simp only [ha, if_true] at ht
    obtain ⟨u, hu, he⟩ := List.mem_map.mp ht
    by_cases hb : (u.id == s.id) = true
    · rw [if_pos hb] at he
      cases he
      exact absurd rfl h
    · rw [if_neg hb] at he
      exact he ▸ hu
  · simp only [Bool.not_eq_true] at ha
    simp only [ha, Bool.false_eq_true, if_false, List.mem_append,
      List.mem_singleton] at ht
    rcases ht with h1 | h2
    · exact h1
    · cases h2
      exact absurd rfl h

theorem getSession_map (f : HermesSession → HermesSession)
    (hf : ∀ s, (f s).id = s.id) (st : Store) (x : String) :
    getSession (st.map f) x = (getSession st x).map f := by
  induction st with
  | nil => rfl
  | cons a t ih =>
    simp only [List.map_cons, getSession, List.find?, hf a]
    cases h : a.id == x
    · simpa [getSession] using ih
    · rfl

theorem getSession_id (st : Store) (x : String) (s : HermesSession)
    (h : getSession st x = some s) : s.id = x := by
  have hp := List.find?_some h
  simpa using hp

theorem updateStatus_id (x stt : String) :
    ∀ s, ((fun s => if s.id == x then { s with status := stt } else s)
      (s : HermesSession)).id = s.id := by
  intro s
  by_cases h : (s.id == x) = true <;> simp [h]

theorem updateSnapshot_id (x slug : String) :
    ∀ s, ((fun s => if s.id == x then { s with snapshotSlug := some slug }
      else s) (s : HermesSession)).id = s.id := by
  intro s
  by_cases h : (s.id == x) = true <;> simp [h]

theorem getSession_updateStatus (st : Store) (x stt y : String) :
    getSession (updateSessionStatus st x stt) y =
      (getSession st y).map
        (fun s => if s.id == x then { s with status := stt } else s) :=
  getSession_map _ (updateStatus_id x stt) st y

theorem getSession_updateSnapshot (st : Store) (x slug y : String) :
    getSession (updateSessionSnapshot st x slug) y =
      (getSession st y).map
        (fun s => if s.id == x then { s with snapshotSlug := some slug }
          else s) :=
  getSession_map _ (updateSnapshot_id x slug) st y

theorem mem_updateStatus_status (st : Store) (x stt : String)
    (t : HermesSession) (ht : t ∈ updateSessionStatus st x stt)
    (hid : t.id = x) : t.status = stt := by
  obtain ⟨u, _, he⟩ := List.mem_map.mp ht
  by_cases hb : (u.id == x) = true
  · rw [if_pos hb] at he
    cases he
    rfl
  · rw [if_neg hb] at he
    cases he
    exact absurd (by simpa using hid) hb

theorem mem_updateStatus_source (st : Store) (x stt : String)
    (t : HermesSession) (ht : t ∈ updateSessionStatus st x stt) :
    ∃ u ∈ st, t.id = u.id ∧ t.snapshotSlug = u.snapshotSlug ∧
      (t.status = u.status ∨ t.status = stt) := by
  obtain ⟨u, hu, he⟩ := List.mem_map.mp ht
  by_cases hb : (u.id == x) = true
  · rw [if_pos hb] at he
    exact ⟨u, hu, by rw [← he], by rw [← he], Or.inr (by rw [← he])⟩
  · rw [if_neg hb] at he
    subst he
    exact ⟨u, hu, rfl, rfl, Or.inl rfl⟩

theorem mem_updateSnapshot_slug (st : Store) (x slug : String)
    (t : HermesSession) (ht : t ∈ updateSessionSnapshot st x slug)
    (hid : t.id = x) : t.snapshotSlug = some slug := by
  obtain ⟨u, _, he⟩ := List.mem_map.mp ht
  by_cases hb : (u.id == x) = true
  · rw [if_pos hb] at he
    cases he
    rfl
  · rw [if_neg hb] at he
    cases he
    exact absurd (by simpa using hid) hb

theorem mem_updateSnapshot_source (st : Store) (x slug : String)
    (t : HermesSession) (ht : t ∈ updateSessionSnapshot st x slug) :
    ∃ u ∈ st, t.id = u.id ∧ t.status = u.status ∧
      (t.snapshotSlug = u.snapshotSlug ∨ t.snapshotSlug = some slug) := by
  obtain ⟨u, hu, he⟩ := List.mem_map.mp ht
  by_cases hb : (u.id == x) = true
  · rw [if_pos hb] at he
    exact ⟨u, hu, by rw [← he], by rw [← he], Or.inr (by rw [← he])⟩
  · rw [if_neg hb] at he
    subst he
    exact ⟨u, hu, rfl, rfl, Or.inl rfl⟩

theorem truthy_denoSlug_hsnap (n : String) :
    truthy (some (denoSlug "hsnap" (some n))) = true := by
  have hne : denoSlug "hsnap" (some n) ≠ "" := by
    intro he
    have hd : (denoSlug "hsnap" (some n)).data =
        'h' :: 's' :: 'n' :: 'a' :: 'p' :: '-' :: n.data := rfl
    rw [he] at hd
    exact List.noConfusion hd
  show (!(denoSlug "hsnap" (some n) == "")) = true
  simp [hne]

theorem isPrefixOf_self_append (l t : List Char) :
    l.isPrefixOf (l ++ t) = true := by
  induction l with
  | nil => simp [List.isPrefixOf]
  | cons c l ih => simp [List.isPrefixOf, ih]

namespace Cloud

theorem listContainsSeq_mid (s a b : List Char) :
    listContainsSeq s (a ++ (s ++ b)) = true := by
  induction a with
  | nil =>
    cases s with
    | nil =>
      cases b with
      | nil => rfl
      | cons c t => simp [listContainsSeq, List.isPrefixOf]
    | cons c t =>
      simp [listContainsSeq, isPrefixOf_self_append]
  | cons c a ih =>
    simp [listContainsSeq, ih]

theorem create_ok_inversion (env : CloudEnv) (st : Store)
    (o : CreateOptions) (s : HermesSession)
    (h : (create env st o).result = Except.ok (some s)) :
    s.snapshotSlug = none ∧ s.status = "running" ∧ s.resumedFrom = none ∧
      s ∈ (create env st o).store := by
  cases hc : env.clientOk
  · simp [create, hc] at h
  · rcases hi : env.ensureImageResp with e | base
    · simp [create, hc, hi] at h
    · rcases hv : env.createVolumeResp with e | volId
      · simp [create, hc, hi, hv] at h
      · rcases hs : env.createSandboxResp with msg | rid
        · cases hl : isLimitMessage msg
          · simp [create, hc, hi, hv, hs, hl] at h
          · simp [create, hc, hi, hv, hs, hl] at h
        · cases hb : env.postBootOk
          · simp [create, hc, hi, hv, hs, hb] at h
          · cases hint : o.interactive
            · simp [create, hc, hi, hv, hs, hb, hint] at h ⊢
              rw [← h]
              exact ⟨rfl, rfl, rfl, mem_upsert_self _ _⟩
            · simp [create, hc, hi, hv, hs, hb, hint] at h

theorem resumeBoot_ok_inversion (env : CloudEnv) (st : Store)
    (sid : String) (o : ResumeOptions) (existing : HermesSession)
    (region bvs : String) (cnv : Bool) (calls : List BCall) (rw : Bool)
    (nid : String)
    (h : (resumeBoot env st sid o existing region bvs cnv calls rw).result =
      Except.ok nid) :
    ∃ row ∈ (resumeBoot env st sid o existing region bvs cnv calls rw).store,
      row.id = nid ∧ row.resumedFrom = some sid ∧
      row.snapshotSlug = none ∧ row.region = some region ∧
      row.volumeSlug = some bvs ∧ row.status = "running" := by
  rcases hs : env.createSandboxResp with msg | rid
  · cases hl : isLimitMessage msg
    · simp [resumeBoot, hs, hl] at h
    · simp [resumeBoot, hs, hl] at h
  · cases hb : env.postBootOk
    · simp [resumeBoot, hs, hb] at h
    · simp [resumeBoot, hs, hb] at h ⊢
      subst h
      exact ⟨_, mem_upsert_self _ _, rfl, rfl, rfl, rfl, rfl, rfl⟩

theorem resume_ok_inversion (env : CloudEnv) (st : Store)
    (sid : String) (o : ResumeOptions) (nid : String)
    (h : (resume env st sid o).result = Except.ok nid) :
    ∃ sess, getSession st sid = some sess ∧
    ∃ row ∈ (resume env st sid o).store,
      row.id = nid ∧ row.resumedFrom = some sid ∧
      row.snapshotSlug = none ∧
      row.region = some (match sess.region with
                         | some r => r
                         | none => resolveRegion env) ∧
      row.status = "running" := by
  cases hc : env.clientOk
  · simp [resume, hc] at h
  · cases hg : getSession st sid with
    | none => simp [resume, hc, hg] at h
    | some existing =>
      cases hsn : truthy existing.snapshotSlug
      · cases hvl : truthy existing.volumeSlug
        · simp [resume, hc, hg, hsn, hvl] at h
        · simp only [resume, hc, hg, hsn, hvl] at h ⊢
          simp at h ⊢
          obtain ⟨row, hrow, h1, h2, h3, h4, _, h6⟩ :=
            resumeBoot_ok_inversion _ _ _ _ _ _ _ _ _ _ _ h
          exact ⟨row, hrow, h1, h2, h3, h4, h6⟩
      · rcases hv : env.createVolumeResp with e | vid
        · simp [resume, hc, hg, hsn, hv] at h
        · simp only [resume, hc, hg, hsn, hv] at h ⊢
          simp at h ⊢
          obtain ⟨row, hrow, h1, h2, h3, h4, _, h6⟩ :=
            resumeBoot_ok_inversion _ _ _ _ _ _ _ _ _ _ _ h
          exact ⟨row, hrow, h1, h2, h3, h4, h6⟩

theorem foldl_exited_preserve (ids : List String)
    (L : List HermesSession) (acc : Store) (x : String)
    (h : ∀ t ∈ acc, t.id = x → t.status = "exited") :
    ∀ t ∈ L.foldl (fun acc s =>
        if staleAgainst ids s then updateSessionStatus acc s.id "exited"
        else acc) acc,
      t.id = x → t.status = "exited" := by
  induction L generalizing acc with
  | nil => exact h
  | cons a L ih =>
    simp only [List.foldl_cons]
    apply ih
    by_cases ha : staleAgainst ids a = true
    · rw [if_pos ha]
      intro t ht hid
      obtain ⟨u, hu, hid2, _, hstat⟩ := mem_updateStatus_source _ _ _ _ ht
      rcases hstat with h1 | h1
      · rw [h1]
        exact h u hu (hid2.symm.trans hid)
      · exact h1
    · rw [if_neg ha]
      exact h

theorem foldl_exited_mem (ids : List String) (L : List HermesSession)
    (acc : Store) (x : String) :
    (∃ s ∈ L, staleAgainst ids s = true ∧ s.id = x) →
    ∀ t ∈ L.foldl (fun acc s =>
        if staleAgainst ids s then updateSessionStatus acc s.id "exited"
        else acc) acc,
      t.id = x → t.status = "exited" := by
  induction L generalizing acc with
  | nil =>
    rintro ⟨s, hs, _⟩
    cases hs
  | cons a L ih =>
    rintro ⟨s, hs, hst, hsx⟩
    simp only [List.foldl_cons]
    rcases List.mem_cons.mp hs with rfl | hmem
    · rw [if_pos hst]
      apply foldl_exited_preserve
      intro t ht hid
      exact mem_updateStatus_status _ _ _ _ ht (hid.trans hsx.symm)
    · by_cases ha : staleAgainst ids a = true
      · rw [if_pos ha]
        exact ih _ ⟨s, hmem, hst, hsx⟩
      · rw [if_neg ha]
        exact ih _ ⟨s, hmem, hst, hsx⟩

theorem resumeBoot_callRegion (env : CloudEnv) (st : Store) (sid : String)
    (o : ResumeOptions) (ex : HermesSession) (region bvs : String)
    (cnv : Bool) (calls0 : List BCall) (rw : Bool) :
    ∀ c ∈ (resumeBoot env st sid o ex region bvs cnv calls0 rw).calls,
      c ∈ calls0 ∨ callRegion c = none ∨ callRegion c = some region := by
  intro c hc
  rcases hs : env.createSandboxResp with msg | rid
  · cases hcnv : cnv <;> cases hl : isLimitMessage msg <;>
      simp [resumeBoot, hs, hcnv, hl] at hc <;>
      rcases hc with hc | hc
    · exact Or.inl hc
    · exact Or.inr (Or.inr (by rw [hc]; rfl))
    · exact Or.inl hc
    · exact Or.inr (Or.inr (by rw [hc]; rfl))
    · exact Or.inl hc
    · rcases hc with hc | hc
      · exact Or.inr (Or.inr (by rw [hc]; rfl))
      · exact Or.inr (Or.inl (by rw [hc]; rfl))
    · exact Or.inl hc
    · rcases hc with hc | hc
      · exact Or.inr (Or.inr (by rw [hc]; rfl))
      · exact Or.inr (Or.inl (by rw [hc]; rfl))
  · cases hb : env.postBootOk <;>
      simp [resumeBoot, hs, hb] at hc <;>
      rcases hc with hc | hc
    · exact Or.inl hc
    · exact Or.inr (Or.inr (by rw [hc]; rfl))
    · exact Or.inl hc
    · exact Or.inr (Or.inr (by rw [hc]; rfl))

theorem resumeBoot_regionWarned (env : CloudEnv) (st : Store)
    (sid : String) (o : ResumeOptions) (ex : HermesSession)
    (region bvs : String) (cnv : Bool) (calls0 : List BCall) (rw : Bool) :
    (resumeBoot env st sid o ex region bvs cnv calls0 rw).regionWarned =
      rw := by
  rcases hs : env.createSandboxResp with msg | rid
  · cases hl : isLimitMessage msg <;> simp [resumeBoot, hs, hl]
  · cases hb : env.postBootOk <;> simp [resumeBoot, hs, hb]

theorem resume_result_ok (env : CloudEnv) (st0 : Store) (sid : String)
    (o : ResumeOptions) (s1 : HermesSession) (vid nid : String)
    (hc : env.clientOk = true) (hg : getSession st0 sid = some s1)
    (hart : (truthy s1.snapshotSlug || truthy s1.volumeSlug) = true)
    (h3 : env.createVolumeResp = Except.ok vid)
    (h4 : env.createSandboxResp = Except.ok nid)
    (h5 : env.postBootOk = true) :
    (resume env st0 sid o).result = Except.ok nid := by
  cases hsn : truthy s1.snapshotSlug
  · cases hvl : truthy s1.volumeSlug
    · rw [hsn, hvl] at hart
      simp at hart
    · simp [resume, resumeBoot, hc, hg, hsn, hvl, h3, h4, h5]
  · simp [resume, resumeBoot, hc, hg, hsn, h3, h4, h5]

theorem stop_getSession (env1 : CloudEnv) (store : Store) (sid : String)
    (sess : HermesSession)
    (h1 : env1.clientOk = true) (h0 : getSession store sid = some sess) :
    ∃ s1, getSession (stop env1 store sid).store sid = some s1 ∧
      s1.volumeSlug = sess.volumeSlug ∧ s1.status = "stopped" := by
  have hid : sess.id = sid := getSession_id _ _ _ h0
  cases hvol : truthy sess.volumeSlug
  · have heq : (stop env1 store sid).store =
        updateSessionStatus store sid "stopped" := by
      simp [stop, h1, h0, hvol]
    refine ⟨{ sess with status := "stopped" }, ?_, rfl, rfl⟩
    rw [heq, getSession_updateStatus, h0]
    simp [hid]
  · cases hsk : env1.snapshotOk
    · have heq : (stop env1 store sid).store =
          updateSessionStatus store sid "stopped" := by
        simp [stop, h1, h0, hvol, hsk]
      refine ⟨{ sess with status := "stopped" }, ?_, rfl, rfl⟩
      rw [heq, getSession_updateStatus, h0]
      simp [hid]
    · have heq : (stop env1 store sid).store =
          updateSessionSnapshot (updateSessionStatus store sid "stopped")
            sid (denoSlug "hsnap" (some sess.name)) := by
        simp [stop, h1, h0, hvol, hsk]
      refine ⟨{ sess with
          status := "stopped"
          snapshotSlug := some (denoSlug "hsnap" (some sess.name)) },
        ?_, rfl, rfl⟩
      rw [heq, getSession_updateSnapshot, getSession_updateStatus, h0]
      simp [hid]

theorem resume_store_mem_of (env : CloudEnv) (st0 : Store) (sid : String)
    (o : ResumeOptions) (t : HermesSession) (rid : String)
    (h4 : env.createSandboxResp = Except.ok rid)
    (ht : t ∈ st0) (hne : ¬t.id = rid) :
    t ∈ (resume env st0 sid o).store := by
  cases hc : env.clientOk
  · simpa [resume, hc] using ht
  · cases hg : getSession st0 sid with
    | none => simpa [resume, hc, hg] using ht
    | some ex =>
      cases hsn : truthy ex.snapshotSlug
      · cases hvl : truthy ex.volumeSlug
        · simpa [resume, hc, hg, hsn, hvl] using ht
        · cases hb : env.postBootOk
          · simpa [resume, resumeBoot, hc, hg, hsn, hvl, h4, hb] using ht
          · simp [resume, resumeBoot, hc, hg, hsn, hvl, h4, hb]
            exact mem_upsert_of_ne _ _ _ ht hne
      · rcases hv : env.createVolumeResp with e | vid
        · simpa [resume, hc, hg, hsn, hv] using ht
        · cases hb : env.postBootOk
          · simpa [resume, resumeBoot, hc, hg, hsn, hv, h4, hb] using ht
          · simp [resume, resumeBoot, hc, hg, hsn, hv, h4, hb]
            exact mem_upsert_of_ne _ _ _ ht hne

theorem resume_store_mem_rev (env : CloudEnv) (st0 : Store) (sid : String)
    (o : ResumeOptions) (t : HermesSession) (rid : String)
    (h4 : env.createSandboxResp = Except.ok rid)
    (ht : t ∈ (resume env st0 sid o).store) (hne : ¬t.id = rid) :
    t ∈ st0 := by
  cases hc : env.clientOk
  · simpa [resume, hc] using ht
  · cases hg : getSession st0 sid with
    | none => simpa [resume, hc, hg] using ht
    | some ex =>
      cases hsn : truthy ex.snapshotSlug
      · cases hvl : truthy ex.volumeSlug
        · simpa [resume, hc, hg, hsn, hvl] using ht
        · cases hb : env.postBootOk
          · simpa [resume, resumeBoot, hc, hg, hsn, hvl, h4, hb] using ht
          · simp [resume, resumeBoot, hc, hg, hsn, hvl, h4, hb] at ht
            exact of_mem_upsert_ne _ _ _ ht hne
      · rcases hv : env.createVolumeResp with e | vid
        · simpa [resume, hc, hg, hsn, hv] using ht
        · cases hb : env.postBootOk
          · simpa [resume, resumeBoot, hc, hg, hsn, hv, h4, hb] using ht
          · simp [resume, resumeBoot, hc, hg, hsn, hv, h4, hb] at ht
            exact of_mem_upsert_ne _ _ _ ht hne

theorem ensureCloudSnapshot_ok (env : SnapEnv) (snaps : List String)
    (version region slug : String)
    (h : (ensureCloudSnapshot env snaps version region).result =
      Except.ok slug) :
    slug = baseSnapshotSlug version ∧
    (ensureCloudSnapshot env snaps version region).snapshots.contains slug
      = true := by
  by_cases hg : (env.getSnapshotOk &&
      snaps.contains (baseSnapshotSlug version)) = true
  · have hc : snaps.contains (baseSnapshotSlug version) = true := by
      have := hg
      simp only [Bool.and_eq_true] at this
      exact this.2
    simp only [ensureCloudSnapshot, hg, if_true] at h ⊢
    simp only [Except.ok.injEq] at h
    subst h
    exact ⟨rfl, hc⟩
  · have hg2 : ¬(env.getSnapshotOk = true ∧
        baseSnapshotSlug version ∈ snaps) := by
      simpa using hg
    cases hv : env.createVolumeOk
    · simp [ensureCloudSnapshot, hg2, hv] at h
    · cases hs : env.createSandboxOk
      · simp [ensureCloudSnapshot, hg2, hv, hs] at h
      · cases hins : env.installOk
        · simp [ensureCloudSnapshot, hg2, hv, hs, hins] at h
        · cases hsv : env.snapshotVolumeOk
          · simp [ensureCloudSnapshot, hg2, hv, hs, hins, hsv] at h
          · simp only [ensureCloudSnapshot] at h ⊢
            simp [hg2, hv, hs, hins, hsv] at h ⊢
            subst h
            simp

theorem limitMessage_contains_count (n : Nat) :
    strIncludes (limitMessage n) (toString n) = true := by
  unfold limitMessage strIncludes
  have hd : ("Cloud sandbox limit reached (" ++ toString n ++
      " running). " ++
      "Stop a running session or wait for one to finish.").data =
      "Cloud sandbox limit reached (".data ++ ((toString n).data ++
        (" running). ".data ++
         "Stop a running session or wait for one to finish.".data)) := by
    simp
  rw [hd]
  exact listContainsSeq_mid _ _ _

end Cloud

/-! The claims. -/

/-- C1: for every `remove(id)` call, backend cleanup is best-effort and
ordered — the kill is attempted first, the snapshot delete (when a
snapshot is stored) is issued before the volume delete (when a volume is
stored), the volume delete is attempted regardless of whether the snapshot
delete fails (the issued calls do not depend on the cleanup-failure knobs),
nothing is thrown (`remove` is total), and the local store row is deleted
unconditionally, under every backend environment. -/
theorem claim_C1_remove_cleanup (env : Cloud.CloudEnv) (store : Store)
    (sid : String) (h1 : env.clientOk = true) :
    (∀ env2 : Cloud.CloudEnv,
       (∀ t ∈ (Cloud.remove env2 store sid).1, ¬t.id = sid) ∧
       (∀ t ∈ store, ¬t.id = sid → t ∈ (Cloud.remove env2 store sid).1)) ∧
    (Cloud.remove env store sid).2.head? =
      some (Cloud.BCall.killSandbox sid) ∧
    (∀ sess, getSession store sid = some sess →
       (Cloud.remove env store sid).2 =
         Cloud.BCall.killSandbox sid ::
           ((if truthy sess.snapshotSlug then
               [Cloud.BCall.deleteSnapshot (optStr sess.snapshotSlug)]
             else []) ++
            (if truthy sess.volumeSlug then
               [Cloud.BCall.deleteVolume (optStr sess.volumeSlug)]
             else []))) ∧
    (∀ b1 b2 b3 : Bool,
       Cloud.remove
         { env with deleteSnapshotOk := b1, deleteVolumeOk := b2,
                    snapshotOk := b3 } store sid =
         Cloud.remove env store sid) := by
  refine ⟨?_, ?_, ?_, ?_⟩
  · intro env2
    constructor
    · intro t ht
      have := List.mem_filter.mp ht
      simpa using this.2
    · intro t ht hne
      exact List.mem_filter.mpr ⟨ht, by simpa using hne⟩
  · simp [Cloud.remove, h1]
  · intro sess hsess
    simp [Cloud.remove, h1, hsess]
  · intro b1 b2 b3
    rfl

/-- Witness for C1: a session holding both a snapshot and a volume, in an
environment where the snapshot delete fails; the kill is observed first,
then the snapshot delete, then the volume delete, and the row is gone. -/
theorem claim_C1_remove_cleanup_witness :
    (Cloud.remove { okEnv with deleteSnapshotOk := false } [sessFull]
        "s1").2 =
      [Cloud.BCall.killSandbox "s1", Cloud.BCall.deleteSnapshot "hsnap-feat",
       Cloud.BCall.deleteVolume "hs-feat"] ∧
    (∀ t ∈ (Cloud.remove { okEnv with deleteSnapshotOk := false } [sessFull]
        "s1").1, ¬t.id = "s1") :=
  ⟨(claim_C1_remove_cleanup { okEnv with deleteSnapshotOk := false }
      [sessFull] "s1" rfl).2.2.1 sessFull rfl,
   ((claim_C1_remove_cleanup { okEnv with deleteSnapshotOk := false }
      [sessFull] "s1" rfl).1 _).1⟩

/-- C2: `stop` kills the sandbox first and persists `status = stopped`;
the snapshot is best-effort — when it fails, `stop` still returns
successfully and the store only receives the status update (so the stored
`snapshotSlug` is untouched); when it succeeds, the row's `snapshotSlug`
becomes the stop-time snapshot slug.  Sessions inserted by a successful
`create` or `resume` carry no `snapshotSlug`, so only a successful stop
ever sets one. -/
theorem claim_C2_stop_best_effort (env : Cloud.CloudEnv) (store : Store)
    (sid : String) (sess : HermesSession)
    (h1 : env.clientOk = true)
    (h2 : getSession store sid = some sess) :
    (Cloud.stop env store sid).result = Except.ok () ∧
    (Cloud.stop env store sid).calls.head? =
      some (Cloud.BCall.killSandbox sid) ∧
    (∀ t ∈ (Cloud.stop env store sid).store, t.id = sid →
       t.status = "stopped") ∧
    (env.snapshotOk = false →
       (Cloud.stop env store sid).store =
         updateSessionStatus store sid "stopped") ∧
    (truthy sess.volumeSlug = true →
       (Cloud.stop env store sid).calls =
         [Cloud.BCall.killSandbox sid,
          Cloud.BCall.snapshotVolume (optStr sess.volumeSlug)
            (denoSlug "hsnap" (some sess.name))]) ∧
    (env.snapshotOk = true → truthy sess.volumeSlug = true →
       ∀ t ∈ (Cloud.stop env store sid).store, t.id = sid →
         t.snapshotSlug = some (denoSlug "hsnap" (some sess.name))) ∧
    (∀ env2 st2 o2 s2,
       (Cloud.create env2 st2 o2).result = Except.ok (some s2) →
       s2.snapshotSlug = none) ∧
    (∀ env2 st2 sid2 o2 nid,
       (Cloud.resume env2 st2 sid2 o2).result = Except.ok nid →
       ∃ row ∈ (Cloud.resume env2 st2 sid2 o2).store,
         row.id = nid ∧ row.snapshotSlug = none) := by
  refine ⟨?_, ?_, ?_, ?_, ?_, ?_, ?_, ?_⟩
  · cases hvl : truthy sess.volumeSlug <;>
      cases hsk : env.snapshotOk <;>
      simp [Cloud.stop, h1, h2, hvl, hsk]
  · cases hvl : truthy sess.volumeSlug <;>
      cases hsk : env.snapshotOk <;>
      simp [Cloud.stop, h1, h2, hvl, hsk]
  · intro t ht hid
    cases hvl : truthy sess.volumeSlug <;>
      cases hsk : env.snapshotOk <;>
      simp only [Cloud.stop, h1, h2, hvl, hsk] at ht <;>
      simp at ht
    · exact mem_updateStatus_status _ _ _ _ ht hid
    · exact mem_updateStatus_status _ _ _ _ ht hid
    · exact mem_updateStatus_status _ _ _ _ ht hid
    · obtain ⟨u, hu, hid2, hst, _⟩ := mem_updateSnapshot_source _ _ _ _ ht
      rw [hst]
      exact mem_updateStatus_status _ _ _ _ hu (hid2 ▸ hid)
  · intro hsk
    cases hvl : truthy sess.volumeSlug <;>
      simp [Cloud.stop, h1, h2, hvl, hsk]
  · intro hvl
    cases hsk : env.snapshotOk <;>
      simp [Cloud.stop, h1, h2, hvl, hsk]
  · intro hsk hvl t ht hid
    simp only [Cloud.stop, h1, h2, hvl, hsk] at ht
    simp at ht
    exact mem_updateSnapshot_slug _ _ _ _ ht hid
  · intro env2 st2 o2 s2 h
    exact (Cloud.create_ok_inversion env2 st2 o2 s2 h).1
  · intro env2 st2 sid2 o2 nid h
    obtain ⟨sess2, _, row, hrow, ha, _, hc, _, _⟩ :=
      Cloud.resume_ok_inversion env2 st2 sid2 o2 nid h
    exact ⟨row, hrow, ha, hc⟩

/-- Witness for C2: stopping a running session whose snapshot call fails
still succeeds, persists the stopped status, and leaves the snapshot slug
unset. -/
theorem claim_C2_stop_best_effort_witness :
    (Cloud.stop { okEnv with snapshotOk := false } [sessRunning]
        "s2").result = Except.ok () ∧
    (Cloud.stop { okEnv with snapshotOk := false } [sessRunning]
        "s2").store = updateSessionStatus [sessRunning] "s2" "stopped" ∧
    (Cloud.stop { okEnv with snapshotOk := false } [sessRunning]
        "s2").calls =
      [Cloud.BCall.killSandbox "s2",
       Cloud.BCall.snapshotVolume "hs-fix" "hsnap-fix"] :=
  ⟨(claim_C2_stop_best_effort { okEnv with snapshotOk := false }
      [sessRunning] "s2" sessRunning rfl (by decide)).1,
   (claim_C2_stop_best_effort { okEnv with snapshotOk := false }
      [sessRunning] "s2" sessRunning rfl (by decide)).2.2.2.1 rfl,
   (claim_C2_stop_best_effort { okEnv with snapshotOk := false }
      [sessRunning] "s2" sessRunning rfl (by decide)).2.2.2.2.1
     (by decide)⟩

/-- C3: `resume` on a session with neither a snapshot nor a volume
(including an id with no stored row) fails with the descriptive error
before issuing any backend call; with a snapshot stored the first backend
call clones a fresh volume from that snapshot, and with only a volume
stored the first backend call boots the sandbox directly from that volume
and no volume is ever created. -/
theorem claim_C3_resume_artifact_guard (env : Cloud.CloudEnv)
    (store : Store) (sid : String) (o : Cloud.ResumeOptions)
    (h1 : env.clientOk = true) :
    (Cloud.hasResumeArtifact store sid = false →
       Cloud.resume env store sid o =
         ⟨Except.error Cloud.noArtifactMsg, store, [], false⟩) ∧
    (∀ sess, getSession store sid = some sess →
       truthy sess.snapshotSlug = true →
       (Cloud.resume env store sid o).calls.head? =
         some (Cloud.BCall.createVolume (denoSlug "hr" (some sess.name))
           (match sess.region with
            | some r => r
            | none => Cloud.resolveRegion env)
           (optStr sess.snapshotSlug))) ∧
    (∀ sess, getSession store sid = some sess →
       truthy sess.snapshotSlug = false → truthy sess.volumeSlug = true →
       (Cloud.resume env store sid o).calls.head? =
         some (Cloud.BCall.createSandbox
           (match sess.region with
            | some r => r
            | none => Cloud.resolveRegion env)
           (optStr sess.volumeSlug)) ∧
       (∀ sl rg src, Cloud.BCall.createVolume sl rg src ∉
          (Cloud.resume env store sid o).calls)) := by
  refine ⟨?_, ?_, ?_⟩
  · intro hart
    cases hg : getSession store sid with
    | none => simp [Cloud.resume, h1, hg]
    | some sess =>
      rw [Cloud.hasResumeArtifact, hg] at hart
      simp only [Bool.or_eq_false_iff] at hart
      simp [Cloud.resume, h1, hg, hart.1, hart.2]
  · intro sess hg hsn
    rcases hv : env.createVolumeResp with e | vid
    · simp [Cloud.resume, h1, hg, hsn, hv]
    · rcases hs : env.createSandboxResp with msg | rid
      · cases hl : Cloud.isLimitMessage msg <;>
          cases hb : env.postBootOk <;>
          simp [Cloud.resume, Cloud.resumeBoot, h1, hg, hsn, hv, hs, hl, hb]
      · cases hb : env.postBootOk <;>
          simp [Cloud.resume, Cloud.resumeBoot, h1, hg, hsn, hv, hs, hb]
  · intro sess hg hsn hvl
    rcases hs : env.createSandboxResp with msg | rid
    · cases hl : Cloud.isLimitMessage msg <;>
        cases hb : env.postBootOk <;>
        simp [Cloud.resume, Cloud.resumeBoot, h1, hg, hsn, hvl, hs, hl, hb]
    · cases hb : env.postBootOk <;>
        simp [Cloud.resume, Cloud.resumeBoot, h1, hg, hsn, hvl, hs, hb]

/-- Witness for C3: resuming a session with no stored artifacts (and an
unknown id) fails with the descriptive error and no backend calls, while a
session with only a volume boots straight from it. -/
theorem claim_C3_resume_artifact_guard_witness :
    Cloud.resume okEnv [sessBare] "s3"
        { mode := "detached", prompt := some "go", model := none } =
      ⟨Except.error Cloud.noArtifactMsg, [sessBare], [], false⟩ ∧
    Cloud.resume okEnv [] "nope"
        { mode := "detached", prompt := some "go", model := none } =
      ⟨Except.error Cloud.noArtifactMsg, [], [], false⟩ ∧
    (Cloud.resume okEnv [sessRunning] "s2"
        { mode := "detached", prompt := some "go", model := none }).calls.head? =
      some (Cloud.BCall.createSandbox "ord" "hs-fix") :=
  ⟨(claim_C3_resume_artifact_guard okEnv [sessBare] "s3" _ rfl).1 (by decide),
   (claim_C3_resume_artifact_guard okEnv [] "nope" _ rfl).1 (by decide),
   ((claim_C3_resume_artifact_guard okEnv [sessRunning] "s2" _ rfl).2.2
      sessRunning (by decide) (by decide) (by decide)).1⟩

/-- C5: when the sandbox boot fails after the session volume was created,
`create` deletes the just-created volume (issuing the delete independently
of the cleanup-failure knobs, so a failed deletion is swallowed), leaves
the store untouched, and rejects: with the resource-limit message carrying
the current running-session count when the backend error indicates a
quota/concurrency limit, and with the original boot error otherwise. -/
theorem claim_C5_create_rollback (env : Cloud.CloudEnv) (store : Store)
    (o : Cloud.CreateOptions) (base volId msg : String)
    (h1 : env.clientOk = true)
    (h2 : env.ensureImageResp = Except.ok base)
    (h3 : env.createVolumeResp = Except.ok volId)
    (h4 : env.createSandboxResp = Except.error msg) :
    (Cloud.create env store o).calls =
      [Cloud.BCall.createVolume (denoSlug "hs" (some o.branchName))
         (Cloud.resolveRegion env) base,
       Cloud.BCall.createSandbox (Cloud.resolveRegion env)
         (denoSlug "hs" (some o.branchName)),
       Cloud.BCall.deleteVolume volId] ∧
    (Cloud.create env store o).store = store ∧
    (Cloud.isLimitMessage msg = true →
       (Cloud.create env store o).result =
         Except.error (Cloud.limitMessage (Cloud.runningCloudCount store)) ∧
       Cloud.strIncludes
         (Cloud.limitMessage (Cloud.runningCloudCount store))
         (toString (Cloud.runningCloudCount store)) = true) ∧
    (Cloud.isLimitMessage msg = false →
       (Cloud.create env store o).result = Except.error msg) ∧
    (∀ b1 b2 : Bool,
       Cloud.create { env with deleteVolumeOk := b1,
                               deleteSnapshotOk := b2 } store o =
         Cloud.create env store o) := by
  refine ⟨?_, ?_, ?_, ?_, ?_⟩
  · cases hl : Cloud.isLimitMessage msg <;>
      simp [Cloud.create, h1, h2, h3, h4, hl]
  · cases hl : Cloud.isLimitMessage msg <;>
      simp [Cloud.create, h1, h2, h3, h4, hl]
  · intro hl
    exact ⟨by simp [Cloud.create, h1, h2, h3, h4, hl],
      Cloud.limitMessage_contains_count _⟩
  · intro hl
    simp [Cloud.create, h1, h2, h3, h4, hl]
  · intro b1 b2
    rfl

/-- Witness for C5: with one running session stored, a quota failure on
boot deletes the fresh volume and rejects with the count-bearing limit
message; a plain boot failure rejects with the original error, in both
cases after recording the volume delete. -/
theorem claim_C5_create_rollback_witness :
    (Cloud.create { okEnv with
        createSandboxResp := Except.error "concurrent sandbox quota reached" } [sessRunning]
        optsBasic).result =
      Except.error (Cloud.limitMessage 1) ∧
    (Cloud.create { okEnv with
        createSandboxResp := Except.error "concurrent sandbox quota reached" } [sessRunning]
        optsBasic).calls =
      [Cloud.BCall.createVolume "hs-b" "ord" "hermes-base-0.3.0",
       Cloud.BCall.createSandbox "ord" "hs-b",
       Cloud.BCall.deleteVolume "vol-id-1"] ∧
    (Cloud.create { okEnv with
        createSandboxResp := Except.error "network blip" } [sessRunning] optsBasic).result =
      Except.error "network blip" :=
  ⟨((claim_C5_create_rollback _ [sessRunning] optsBasic
      "hermes-base-0.3.0" "vol-id-1" "concurrent sandbox quota reached"
      rfl rfl rfl rfl).2.2.1 (by decide)).1,
   (claim_C5_create_rollback _ [sessRunning] optsBasic
      "hermes-base-0.3.0" "vol-id-1" "concurrent sandbox quota reached"
      rfl rfl rfl rfl).1,
   (claim_C5_create_rollback _ [sessRunning] optsBasic
      "hermes-base-0.3.0" "vol-id-1" "network blip"
      rfl rfl rfl rfl).2.2.2.1 (by decide)⟩

/-- C6: `list` reconciles status — every stored cloud session that is not
in a terminal state (given that this provider only ever stores `running`,
`stopped` or `exited`) and that the backend no longer reports as running is
returned as `exited` with the correction persisted to the store; and when
the status sync fails (no client, or the backend listing errors), `list`
returns the stored cloud rows unmodified without throwing. -/
theorem claim_C6_list_reconcile (env : Cloud.CloudEnv) (store : Store)
    (ids : List String)
    (hstat : ∀ s ∈ store, s.provider = "cloud" →
       s.status = "running" ∨ s.status = "stopped" ∨ s.status = "exited")
    (h1 : env.clientOk = true)
    (h2 : env.listResp = Except.ok ids) :
    (∀ s ∈ store, s.provider = "cloud" →
       s.status ≠ "stopped" → s.status ≠ "exited" →
       ids.contains s.id = false →
       ({ s with status := "exited" } ∈ (Cloud.list env store).1 ∧
        ∀ t ∈ (Cloud.list env store).2, t.id = s.id →
          t.status = "exited")) ∧
    (∀ env2 : Cloud.CloudEnv, env2.clientOk = false →
       Cloud.list env2 store = (listSessions store "cloud" none, store)) ∧
    (∀ env2 : Cloud.CloudEnv, ∀ e, env2.listResp = Except.error e →
       Cloud.list env2 store = (listSessions store "cloud" none, store)) := by
  refine ⟨?_, ?_, ?_⟩
  · intro s hs hp hn1 hn2 hcont
    have hsr : s.status = "running" := by
      rcases hstat s hs hp with h | h | h
      · exact h
      · exact absurd h hn1
      · exact absurd h hn2
    have hmem : s ∈ listSessions store "cloud" none := by
      simp [listSessions, List.mem_filter, hs, hp]
    have hnotmem : s.id ∉ ids := by simpa using hcont
    have hstale : Cloud.staleAgainst ids s = true := by
      simp [Cloud.staleAgainst, hsr, hnotmem]
    constructor
    · simp only [Cloud.list, h1, h2]
      simp only [Bool.not_true, Bool.false_eq_true, if_false]
      exact List.mem_map.mpr ⟨s, hmem, by simp [hstale]⟩
    · intro t ht hid
      simp only [Cloud.list, h1, h2] at ht
      simp only [Bool.not_true, Bool.false_eq_true, if_false] at ht
      exact Cloud.foldl_exited_mem ids _ store s.id
        ⟨s, hmem, hstale, rfl⟩ t ht hid
  · intro env2 hc
    simp [Cloud.list, hc]
  · intro env2 e he
    cases hc : env2.clientOk
    · simp [Cloud.list, hc]
    · simp [Cloud.list, hc, he]

/-- Witness for C6: a running session the backend no longer reports comes
back as exited, persisted; a failed sync returns the stored row as is. -/
theorem claim_C6_list_reconcile_witness :
    ({ sessRunning with status := "exited" } ∈
       (Cloud.list okEnv [sessRunning]).1 ∧
     ∀ t ∈ (Cloud.list okEnv [sessRunning]).2, t.id = "s2" →
       t.status = "exited") ∧
    Cloud.list { okEnv with listResp := Except.error "boom" }
        [sessRunning] =
      (listSessions [sessRunning] "cloud" none, [sessRunning]) :=
  ⟨(claim_C6_list_reconcile okEnv [sessRunning] []
      (by decide) rfl rfl).1 sessRunning (by decide) (by decide)
      (by decide) (by decide) (by decide),
   (claim_C6_list_reconcile okEnv [sessRunning] []
      (by decide) rfl rfl).2.2 _ "boom" rfl⟩

/-- C7: `ensureImage` is idempotent on both backends.  Cloud: after a
successful `ensureCloudSnapshot`, a second call (whose existence check
succeeds) finds the version-derived snapshot slug, issues only the lookup
call — no build work — leaves the backend unchanged and returns the same
slug.  Local: after a successful `ensureDockerImage`, a second call whose
inspect succeeds finds the content-hash tag and runs zero builds. -/
theorem claim_C7_ensureImage_idempotent (env1 env2 : Cloud.SnapEnv)
    (snaps : List String) (version region1 region2 slug : String)
    (iOk1 bOk1 bOk2 : Bool) (images : List String) (hash : String)
    (hcloud : (Cloud.ensureCloudSnapshot env1 snaps version region1).result
      = Except.ok slug)
    (hchk : env2.getSnapshotOk = true)
    (hdok : (Docker.ensureDockerImage iOk1 bOk1 images hash).result =
      Except.ok ()) :
    Cloud.ensureCloudSnapshot env2
        (Cloud.ensureCloudSnapshot env1 snaps version region1).snapshots
        version region2 =
      ⟨Except.ok slug,
       (Cloud.ensureCloudSnapshot env1 snaps version region1).snapshots,
       [Cloud.BuildCall.getSnapshot (Cloud.baseSnapshotSlug version)]⟩ ∧
    (Cloud.ensureCloudSnapshot env2
        (Cloud.ensureCloudSnapshot env1 snaps version region1).snapshots
        version region2).calls.filter Cloud.isBuildWork = [] ∧
    Docker.ensureDockerImage true bOk2
        (Docker.ensureDockerImage iOk1 bOk1 images hash).images hash =
      ⟨Except.ok (),
       (Docker.ensureDockerImage iOk1 bOk1 images hash).images, 0⟩ := by
  obtain ⟨hslug, hcont⟩ :=
    Cloud.ensureCloudSnapshot_ok env1 snaps version region1 slug hcloud
  subst hslug
  have hmem : Cloud.baseSnapshotSlug version ∈
      (Cloud.ensureCloudSnapshot env1 snaps version region1).snapshots := by
    simpa using hcont
  have hmem2 : Docker.dockerImageTag hash ∈
      (Docker.ensureDockerImage iOk1 bOk1 images hash).images := by
    by_cases hi : (iOk1 = true ∧ Docker.dockerImageTag hash ∈ images)
    · simp [Docker.ensureDockerImage, hi]
    · cases hb : bOk1
      · exfalso
        simp [Docker.ensureDockerImage, hi, hb] at hdok
      · simp [Docker.ensureDockerImage, hi, hb]
  generalize hS1 : (Cloud.ensureCloudSnapshot env1 snaps
    version region1).snapshots = S1 at hmem ⊢
  generalize hI1 : (Docker.ensureDockerImage iOk1 bOk1
    images hash).images = I1 at hmem2 ⊢
  refine ⟨?_, ?_, ?_⟩
  · simp [Cloud.ensureCloudSnapshot, hchk, hmem]
  · simp [Cloud.ensureCloudSnapshot, hchk, hmem, Cloud.isBuildWork]
  · simp [Docker.ensureDockerImage, hmem2]

/-- Witness for C7: building the cloud snapshot from an empty backend and
the docker image from an empty image store, then calling each a second
time, does no further build work. -/
theorem claim_C7_ensureImage_idempotent_witness :
    Cloud.ensureCloudSnapshot
        { getSnapshotOk := true, createVolumeOk := true,
          createSandboxOk := true, installOk := true,
          snapshotVolumeOk := true, volId := "bv1", nowTag := "171" }
        ["hermes-base-0.3.0"] "0.3.0" "ord" =
      ⟨Except.ok "hermes-base-0.3.0", ["hermes-base-0.3.0"],
       [Cloud.BuildCall.getSnapshot "hermes-base-0.3.0"]⟩ ∧
    Docker.ensureDockerImage true true
        ["hermes-sandbox:md5-abc123def456"] "abc123def456" =
      ⟨Except.ok (), ["hermes-sandbox:md5-abc123def456"], 0⟩ :=
  ⟨(claim_C7_ensureImage_idempotent
      { getSnapshotOk := true, createVolumeOk := true,
        createSandboxOk := true, installOk := true,
        snapshotVolumeOk := true, volId := "bv0", nowTag := "170" }
      { getSnapshotOk := true, createVolumeOk := true,
        createSandboxOk := true, installOk := true,
        snapshotVolumeOk := true, volId := "bv1", nowTag := "171" }
      [] "0.3.0" "ord" "ord" "hermes-base-0.3.0" true true true []
      "abc123def456" rfl rfl rfl).1,
   (claim_C7_ensureImage_idempotent
      { getSnapshotOk := true, createVolumeOk := true,
        createSandboxOk := true, installOk := true,
        snapshotVolumeOk := true, volId := "bv0", nowTag := "170" }
      { getSnapshotOk := true, createVolumeOk := true,
        createSandboxOk := true, installOk := true,
        snapshotVolumeOk := true, volId := "bv1", nowTag := "171" }
      [] "0.3.0" "ord" "ord" "hermes-base-0.3.0" true true true []
      "abc123def456" rfl rfl rfl).2.2⟩

/-- C9: every list/get verifies the ownership marker — `listHermesSessions`
returns exactly the images of the containers carrying the
`hermes.managed=true` label, and `getSession` on an id or name that
resolves to a container lacking that label returns `null`. -/
theorem claim_C9_ownership_label (dockerOk : Bool)
    (daemon : List Docker.DockerContainer) (nameOrId : String)
    (c : Docker.DockerContainer) :
    (∀ s ∈ Docker.listHermesSessions dockerOk daemon,
       ∃ c0 ∈ daemon, Docker.isManaged c0 = true ∧
         s = Docker.toDockerSession c0) ∧
    (dockerOk = true → ∀ c0 ∈ daemon, Docker.isManaged c0 = true →
       Docker.toDockerSession c0 ∈
         Docker.listHermesSessions dockerOk daemon) ∧
    (Docker.findContainer daemon nameOrId = some c →
       Docker.isManaged c = false →
       Docker.getSession dockerOk daemon nameOrId = none) := by
  refine ⟨?_, ?_, ?_⟩
  · intro s hs
    cases hd : dockerOk
    · rw [Docker.listHermesSessions, hd] at hs
      simp at hs
    · rw [Docker.listHermesSessions, hd] at hs
      simp only [Bool.not_true, Bool.false_eq_true, if_false] at hs
      obtain ⟨c0, hc0, he⟩ := List.mem_map.mp hs
      exact ⟨c0, (List.mem_filter.mp hc0).1,
        (List.mem_filter.mp hc0).2, he.symm⟩
  · intro hd c0 hc0 hm
    rw [Docker.listHermesSessions, hd]
    simp only [Bool.not_true, Bool.false_eq_true, if_false]
    exact List.mem_map.mpr ⟨c0, List.mem_filter.mpr ⟨hc0, hm⟩, rfl⟩
  · intro hf hm
    cases hd : dockerOk
    · simp [Docker.getSession, hd]
    · simp [Docker.getSession, hd, hf, hm]

/-- Witness for C9: a daemon with one managed and one unmanaged container —
only the managed one is listed, and `getSession` on the unmanaged one (by
name or by id) returns `null`. -/
theorem claim_C9_ownership_label_witness :
    (Docker.toDockerSession
        { cid := "c0ffee0000000", cname := "/hermes-x",
          labels := [("hermes.managed", "true"), ("hermes.name", "x")],
          running := true, paused := false, restarting := false,
          dead := false, statusStr := "running", exitCode := 0,
          startedAt := "t1", finishedAt := "" } ∈
      Docker.listHermesSessions true
        [{ cid := "c0ffee0000000", cname := "/hermes-x",
           labels := [("hermes.managed", "true"), ("hermes.name", "x")],
           running := true, paused := false, restarting := false,
           dead := false, statusStr := "running", exitCode := 0,
           startedAt := "t1", finishedAt := "" },
         { cid := "deadbeef00000", cname := "/intruder",
           labels := [("other", "v")], running := true, paused := false,
           restarting := false, dead := false, statusStr := "running",
           exitCode := 0, startedAt := "t2", finishedAt := "" }]) ∧
    Docker.getSession true
        [{ cid := "c0ffee0000000", cname := "/hermes-x",
           labels := [("hermes.managed", "true"), ("hermes.name", "x")],
           running := true, paused := false, restarting := false,
           dead := false, statusStr := "running", exitCode := 0,
           startedAt := "t1", finishedAt := "" },
         { cid := "deadbeef00000", cname := "/intruder",
           labels := [("other", "v")], running := true, paused := false,
           restarting := false, dead := false, statusStr := "running",
           exitCode := 0, startedAt := "t2", finishedAt := "" }]
        "deadbeef00000" = none :=
  ⟨(claim_C9_ownership_label true _ "deadbeef00000"
      { cid := "deadbeef00000", cname := "/intruder",
        labels := [("other", "v")], running := true, paused := false,
        restarting := false, dead := false, statusStr := "running",
        exitCode := 0, startedAt := "t2", finishedAt := "" }).2.1 rfl _
      (by simp) (by decide),
   (claim_C9_ownership_label true _ "deadbeef00000"
      { cid := "deadbeef00000", cname := "/intruder",
        labels := [("other", "v")], running := true, paused := false,
        restarting := false, dead := false, statusStr := "running",
        exitCode := 0, startedAt := "t2", finishedAt := "" }).2.2
      (by decide) (by decide)⟩

/-- C8 counterexample: when the backend hands back an empty `resolvedId`,
a detached `create` still succeeds and returns/stores a session whose `id`
is the empty string (the source only logs a warning in this case), so a
successful create does not guarantee a non-empty id. -/
theorem claim_C8_counterexample :
    (Cloud.create { okEnv with createSandboxResp := Except.ok "" } []
        optsBasic).result = Except.ok (some emptyIdSession) ∧
    emptyIdSession.id = "" ∧ emptyIdSession.status = "running" :=
  ⟨rfl, rfl, rfl⟩

/-- C8 (amended): a successful `create` returns `null` exactly when the
session is interactive and a populated session when detached; the stored
and returned session have `status = running` and carry the
backend-assigned sandbox id, which is non-empty whenever the backend
returned a non-empty id (the code only logs a warning when it is
empty). -/
theorem claim_C8_create_return_shape (env : Cloud.CloudEnv) (store : Store)
    (o : Cloud.CreateOptions) (base vid rid : String)
    (h1 : env.clientOk = true)
    (h2 : env.ensureImageResp = Except.ok base)
    (h3 : env.createVolumeResp = Except.ok vid)
    (h4 : env.createSandboxResp = Except.ok rid)
    (h5 : env.postBootOk = true) :
    (o.interactive = true →
       (Cloud.create env store o).result = Except.ok none) ∧
    (o.interactive = false →
       ∃ s, (Cloud.create env store o).result = Except.ok (some s) ∧
         s.status = "running" ∧ s.id = rid) ∧
    (∃ row ∈ (Cloud.create env store o).store,
       row.id = rid ∧ row.status = "running") ∧
    (rid ≠ "" → ∀ s,
       (Cloud.create env store o).result = Except.ok (some s) →
       ¬s.id = "") := by
  refine ⟨?_, ?_, ?_, ?_⟩
  · intro hint
    simp [Cloud.create, h1, h2, h3, h4, h5, hint]
  · intro hint
    have hres : (Cloud.create env store o).result =
        Except.ok (some
          { id := rid
            name := o.branchName
            provider := "cloud"
            status := "running"
            agent := o.agent
            model := o.model
            prompt := o.prompt
            branch := o.branchName
            repo := (match o.repoFullName with
                     | some f => f
                     | none => "local")
            created := env.now
            interactive := o.interactive
            region := some (Cloud.resolveRegion env)
            volumeSlug := some (denoSlug "hs" (some o.branchName))
            snapshotSlug := none
            resumedFrom := none }) := by
      simp [Cloud.create, h1, h2, h3, h4, h5, hint]
    exact ⟨_, hres, rfl, rfl⟩
  · cases hint : o.interactive <;>
      · simp only [Cloud.create, h1, h2, h3, h4, h5, hint]
        simp
        exact ⟨_, mem_upsert_self _ _, rfl, rfl⟩
  · intro hne s hres
    cases hint : o.interactive
    · simp [Cloud.create, h1, h2, h3, h4, h5, hint] at hres
      intro h0
      exact hne ((congrArg HermesSession.id hres).trans h0)
    · simp [Cloud.create, h1, h2, h3, h4, h5, hint] at hres

/-- Witness for the amended C8: against the all-ok environment an
interactive create returns `null` while a detached create returns a
running session carrying the backend id. -/
theorem claim_C8_create_return_shape_witness :
    (Cloud.create okEnv [] { optsBasic with interactive := true }).result =
      Except.ok none ∧
    (∃ s, (Cloud.create okEnv [] optsBasic).result =
       Except.ok (some s) ∧ s.status = "running" ∧ s.id = "sb-new") :=
  ⟨(claim_C8_create_return_shape okEnv []
      { optsBasic with interactive := true } "hermes-base-0.3.0"
      "vol-id-1" "sb-new" rfl rfl rfl rfl rfl).1 rfl,
   (claim_C8_create_return_shape okEnv [] optsBasic "hermes-base-0.3.0"
      "vol-id-1" "sb-new" rfl rfl rfl rfl rfl).2.1 rfl⟩

/-- C10: every region-carrying backend call a `resume` issues (volume
creation, sandbox boot) uses the session's recorded region when one is
stored, the configured region only otherwise; on success the new row
records that same region; and when the stored region is a non-empty string
the mismatch warning fires exactly when it differs from the configured
region (given the session has a resume artifact, so the warning code is
reached). -/
theorem claim_C10_resume_region (env : Cloud.CloudEnv) (store : Store)
    (sid : String) (o : Cloud.ResumeOptions) (sess : HermesSession)
    (h1 : env.clientOk = true)
    (h2 : getSession store sid = some sess) :
    (∀ c ∈ (Cloud.resume env store sid o).calls,
       Cloud.callRegion c = none ∨
       Cloud.callRegion c = some (match sess.region with
                                  | some r => r
                                  | none => Cloud.resolveRegion env)) ∧
    (∀ nid, (Cloud.resume env store sid o).result = Except.ok nid →
       ∃ row ∈ (Cloud.resume env store sid o).store, row.id = nid ∧
         row.region = some (match sess.region with
                            | some r => r
                            | none => Cloud.resolveRegion env)) ∧
    (∀ rv, sess.region = some rv → rv ≠ "" →
       Cloud.hasResumeArtifact store sid = true →
       (Cloud.resume env store sid o).regionWarned =
         decide (rv ≠ Cloud.resolveRegion env)) := by
  refine ⟨?_, ?_, ?_⟩
  · intro c hc
    cases hsn : truthy sess.snapshotSlug
    · cases hvl : truthy sess.volumeSlug
      · simp [Cloud.resume, h1, h2, hsn, hvl] at hc
      · simp only [Cloud.resume, h1, h2] at hc
        simp [hsn, hvl] at hc
        rcases Cloud.resumeBoot_callRegion env store sid o sess _ _ _ _ _
            c hc with hin | hnone | hsome
        · cases hin
        · exact Or.inl hnone
        · exact Or.inr hsome
    · rcases hv : env.createVolumeResp with e | vid
      · simp [Cloud.resume, h1, h2, hsn, hv] at hc
        rw [hc]
        exact Or.inr rfl
      · simp only [Cloud.resume, h1, h2] at hc
        simp [hsn, hv] at hc
        rcases Cloud.resumeBoot_callRegion env store sid o sess _ _ _ _ _
            c hc with hin | hnone | hsome
        · rcases List.mem_singleton.mp hin with rfl
          exact Or.inr rfl
        · exact Or.inl hnone
        · exact Or.inr hsome
  · intro nid hres
    obtain ⟨sess2, hg2, row, hrow, hid, _, _, hreg, _⟩ :=
      Cloud.resume_ok_inversion env store sid o nid hres
    rw [h2] at hg2
    cases hg2
    exact ⟨row, hrow, hid, hreg⟩
  · intro rv hrv hne hart
    have htr : truthy sess.region = true := by
      rw [hrv]
      show (!(rv == "")) = true
      simp [hne]
    rw [Cloud.hasResumeArtifact, h2] at hart
    cases hsn : truthy sess.snapshotSlug
    · cases hvl : truthy sess.volumeSlug
      · simp [hsn, hvl] at hart
      · simp only [Cloud.resume, h1, h2]
        simp [hsn, hvl, Cloud.resumeBoot_regionWarned, htr, hrv]
        cases hd : decide (rv = Cloud.resolveRegion env) <;>
          simp_all
    · rcases hv : env.createVolumeResp with e | vid
      · simp [Cloud.resume, h1, h2, hsn, hv, htr, hrv]
        cases hd : decide (rv = Cloud.resolveRegion env) <;>
          simp_all
      · simp only [Cloud.resume, h1, h2]
        simp [hsn, hv, Cloud.resumeBoot_regionWarned, htr, hrv]
        cases hd : decide (rv = Cloud.resolveRegion env) <;>
          simp_all

/-- Witness for C10: resuming `sessFull` (recorded region `ams`) under a
configuration resolving to `ord` clones the volume and boots the sandbox
in `ams`, records `ams` on the new row, and fires the mismatch warning. -/
theorem claim_C10_resume_region_witness :
    (∀ c ∈ (Cloud.resume okEnv [sessFull] "s1"
        { mode := "detached", prompt := some "go", model := none }).calls,
       Cloud.callRegion c = none ∨ Cloud.callRegion c = some "ams") ∧
    (Cloud.resume okEnv [sessFull] "s1"
        { mode := "detached", prompt := some "go", model := none
          }).regionWarned = true :=
  ⟨(claim_C10_resume_region okEnv [sessFull] "s1"
      { mode := "detached", prompt := some "go", model := none }
      sessFull rfl (by decide)).1,
   (claim_C10_resume_region okEnv [sessFull] "s1"
      { mode := "detached", prompt := some "go", model := none }
      sessFull rfl (by decide)).2.2 "ams" rfl (by decide) (by decide)⟩

/-- C4 counterexample: on the docker backend (cited `resumeSession`), the
successor's `hermes.resumed-from` label — the source of the new session's
`resumedFrom` field — records the original container's *name*, which
differs from the original session's id (its container id), so `resumedFrom`
does not equal the original session's id as the claim states. -/
theorem claim_C4_counterexample :
    (Docker.resumeSession dResumeEnvOk [dockerStopped] "hermes-x"
        { mode := "detached", prompt := some "go" }).map
      (fun out => out.newLabels.find?
        (fun p => p.1 == "hermes.resumed-from")) =
      Except.ok (some ("hermes.resumed-from", "hermes-x")) ∧
    (Docker.toDockerSession dockerStopped).containerId = "c0ffee000000" ∧
    ¬("hermes-x" : String) = "c0ffee000000" :=
  ⟨rfl, rfl, by decide⟩

/-- C4 (amended): for every cloud session, stop followed by a successful
resume returns the backend-assigned new id — distinct from the original
whenever the backend assigns a fresh one — inserts a new row whose
`resumedFrom` is the original id, and neither removes nor mutates the
original row; on the docker backend a successful `resumeSession` records
the original container's *name* (leading slash stripped), not its id, in
the `hermes.resumed-from` label of the new container. -/
theorem claim_C4_stop_resume_lineage (env1 env2 : Cloud.CloudEnv)
    (store : Store) (sid : String) (o : Cloud.ResumeOptions)
    (sess : HermesSession) (vid nid : String)
    (h0 : getSession store sid = some sess)
    (hvol : truthy sess.volumeSlug = true)
    (h1 : env1.clientOk = true)
    (h2 : env2.clientOk = true)
    (h3 : env2.createVolumeResp = Except.ok vid)
    (h4 : env2.createSandboxResp = Except.ok nid)
    (h5 : env2.postBootOk = true)
    (h6 : ¬nid = sid) :
    (Cloud.resume env2 (Cloud.stop env1 store sid).store sid o).result =
      Except.ok nid ∧
    (∃ row ∈ (Cloud.resume env2 (Cloud.stop env1 store sid).store sid
        o).store, row.id = nid ∧ row.resumedFrom = some sid) ∧
    (∀ t ∈ (Cloud.stop env1 store sid).store, t.id = sid →
       t ∈ (Cloud.resume env2 (Cloud.stop env1 store sid).store sid
         o).store) ∧
    (∀ t ∈ (Cloud.resume env2 (Cloud.stop env1 store sid).store sid
        o).store, t.id = sid → t ∈ (Cloud.stop env1 store sid).store) ∧
    (∀ denv daemon x o2 out c,
       Docker.resumeSession denv daemon x o2 = Except.ok out →
       Docker.findContainer daemon x = some c →
       out.newLabels.find? (fun p => p.1 == "hermes.resumed-from") =
         some ("hermes.resumed-from", Docker.stripSlash c.cname)) := by
  obtain ⟨s1, hg1, hvs, _⟩ := Cloud.stop_getSession env1 store sid sess
    h1 h0
  have hvl1 : truthy s1.volumeSlug = true := by
    rw [hvs]
    exact hvol
  have hart : (truthy s1.snapshotSlug || truthy s1.volumeSlug) = true := by
    simp [hvl1]
  have hres : (Cloud.resume env2 (Cloud.stop env1 store sid).store sid
      o).result = Except.ok nid :=
    Cloud.resume_result_ok env2 _ sid o s1 vid nid h2 hg1 hart h3 h4 h5
  refine ⟨hres, ?_, ?_, ?_, ?_⟩
  · obtain ⟨sess2, hg2, row, hrow, hidr, hrf, _, _, _⟩ :=
      Cloud.resume_ok_inversion env2 _ sid o nid hres
    exact ⟨row, hrow, hidr, hrf⟩
  · intro t ht hid
    exact Cloud.resume_store_mem_of env2 _ sid o t nid h4 ht
      (fun he => h6 (he.symm.trans hid))
  · intro t ht hid
    exact Cloud.resume_store_mem_rev env2 _ sid o t nid h4 ht
      (fun he => h6 (he.symm.trans hid))
  · intro denv daemon x o2 out c hok hfind
    exact Docker.resumeSession_resumedFrom_label denv daemon x o2 out c
      hok hfind

/-- Witness for the amended C4: stopping and resuming `sessFull` yields the
fresh backend id `sb-new`, with a stored row resuming from `s1`. -/
theorem claim_C4_stop_resume_lineage_witness :
    (Cloud.resume okEnv (Cloud.stop okEnv [sessFull] "s1").store "s1"
        { mode := "detached", prompt := some "go",
          model := none }).result = Except.ok "sb-new" ∧
    (∃ row ∈ (Cloud.resume okEnv (Cloud.stop okEnv [sessFull] "s1").store
        "s1" { mode := "detached", prompt := some "go",
               model := none }).store,
       row.id = "sb-new" ∧ row.resumedFrom = some "s1") :=
  ⟨(claim_C4_stop_resume_lineage okEnv okEnv [sessFull] "s1"
      { mode := "detached", prompt := some "go", model := none }
      sessFull "vol-id-1" "sb-new" (by decide) (by decide) rfl rfl rfl rfl
      rfl (by decide)).1,
   (claim_C4_stop_resume_lineage okEnv okEnv [sessFull] "s1"
      { mode := "detached", prompt := some "go", model := none }
      sessFull "vol-id-1" "sb-new" (by decide) (by decide) rfl rfl rfl rfl
      rfl (by decide)).2.1⟩

end Hermes
